import Mathlib

/-!
Shallow embedding of `plugins/modules/vmware_drs_override.py`
(community.vmware-drs-override).

The module compares a VM's existing per-VM DRS override `behavior` against a
desired value, exits unchanged on match, otherwise submits exactly one
`ReconfigureCluster_Task` with a `DrsVmConfigSpec` (operation `add`,
`enabled=True`, `behavior=desired`) and waits for the task by busy-polling
`task.info.state` in a tight `while ... : pass` loop with no sleep and no
timeout.  Task failure raises a plain `Exception`, which the surrounding
`except vmodl.MethodFault` clause does not catch.

DRS behavior values are kept as strings, exactly as in the Python source
(Ansible validates `drs_behavior` against a `choices` list of strings, and
the comparison `existing_config.behavior == self.drs_behavior` is a Python
string comparison).
-/

namespace VmwareDrsOverride

/-- A `vim.cluster.DrsVmConfigInfo` entry of `cluster.configuration.drsVmConfig`:
the per-VM DRS override.  `key` is the VM reference (modelled by the VM name),
`enabled` the override's enabled flag, `behavior` the DRS automation level. -/
structure DrsVmConfigInfo where
  key : String
  enabled : Bool
  behavior : String
  deriving DecidableEq, Repr

/-- A `vim.cluster.DrsVmConfigSpec`: one element of
`cluster_config_spec.drsVmConfigSpec`, i.e. one remote mutation request. -/
structure DrsVmConfigSpec where
  operation : String
  info : DrsVmConfigInfo
  deriving DecidableEq, Repr

/-- The observable cluster state read in `set_drs_override`:
`cluster.configuration.drsVmConfig`. -/
structure Cluster where
  drsVmConfig : List DrsVmConfigInfo
  deriving DecidableEq, Repr

/-- `vim.TaskInfo.State` values. -/
inductive TaskState where
  | queued
  | running
  | success
  | error
  deriving DecidableEq, Repr

/-- Outcome of `wait_for_task`: either it returns normally (task success) or
it raises `Exception("Task failed: %s" % task.info.error.localizedMessage)`. -/
inductive WaitOutcome where
  | success
  | raised (msg : String)
  deriving DecidableEq, Repr

/-- Instrumented result of `wait_for_task`:
`outcome = none` means the loop was still spinning when the fuel ran out
(the source loop has no timeout, so on a never-terminal task it never exits);
`polls` counts the reads of `task.info.state` performed by the loop guard;
`sleeps` counts suspensions performed between consecutive guard checks
(the loop body in the source is `pass`, so no iteration ever sleeps). -/
structure WaitResult where
  outcome : Option WaitOutcome
  polls : Nat
  sleeps : Nat
  deriving DecidableEq, Repr

/-- Embeds `wait_for_task`:
```
while task.info.state == vim.TaskInfo.State.running:
    pass
if task.info.state == vim.TaskInfo.State.success:
    return task.info.result
else:
    raise Exception("Task failed: %s" % task.info.error.localizedMessage)
```
`st i` is the value of `task.info.state` at the `i`-th read; `locMsg` is
`task.info.error.localizedMessage`.  The post-loop `success` test re-reads a
state that is no longer `running`; terminal states are stable (the handle
never regresses from a terminal state), so it observes the value that ended
the loop.  `fuel` bounds how many guard checks we unfold; the source loop
itself is unbounded. -/
def wait_for_task (st : Nat → TaskState) (locMsg : String) :
    Nat → Nat → WaitResult
  | _, 0 => { outcome := none, polls := 0, sleeps := 0 }
  | i, fuel + 1 =>
    if st i = TaskState.running then
      let r := wait_for_task st locMsg (i + 1) fuel
      { r with polls := r.polls + 1 }
    else if st i = TaskState.success then
      { outcome := some WaitOutcome.success, polls := 1, sleeps := 0 }
    else
      { outcome := some (WaitOutcome.raised ("Task failed: " ++ locMsg)),
        polls := 1, sleeps := 0 }

/-- How the module run terminates, as seen at the Ansible module boundary:
`exitJson` is `module.exit_json(changed=…, msg=…)`, `failJson` is
`module.fail_json(msg=…)`, and `uncaught` is an exception that escaped the
module code (neither caught nor converted to `fail_json`). -/
inductive ModuleExit where
  | exitJson (changed : Bool) (msg : String)
  | failJson (msg : String)
  | uncaught (msg : String)
  deriving DecidableEq, Repr

/-- What the remote endpoint does when `cluster.ReconfigureCluster_Task` is
called: either the call raises a `vmodl.MethodFault` with message `msg`, or
it returns a task handle whose `i`-th observed `task.info.state` is `st i`
and whose `task.info.error.localizedMessage` is `locMsg`. -/
inductive SubmitOutcome where
  | fault (msg : String)
  | task (st : Nat → TaskState) (locMsg : String)

/-- Result of one `set_drs_override` invocation.
`exit = none` means the call never returned within `fuel` poll steps (the
busy-wait loop was still spinning); `submitted` lists the
`DrsVmConfigSpec`s passed to `ReconfigureCluster_Task`, one entry per remote
mutation call issued. -/
structure Invocation where
  exit : Option ModuleExit
  submitted : List DrsVmConfigSpec
  deriving Repr

set_option linter.unusedVariables false in
/-- Embeds `VmwareDrsOverride.set_drs_override`:
```
existing_config = next((config for config in cluster.configuration.drsVmConfig
                        if config.key == self.vm), None)
if existing_config and existing_config.behavior == self.drs_behavior:
    self.module.exit_json(changed=False, msg="DRS behavior is already set to the desired state.")
drs_vm_config_spec = vim.cluster.DrsVmConfigSpec(operation='add',
    info=vim.cluster.DrsVmConfigInfo(key=self.vm, enabled=True, behavior=self.drs_behavior))
...
try:
    task = cluster.ReconfigureCluster_Task(spec=cluster_config_spec, modify=True)
    self.wait_for_task(task)
    self.module.exit_json(changed=True, msg="DRS override applied successfully.")
except vmodl.MethodFault as error:
    self.module.fail_json(msg="Failed to set DRS override: %s" % error.msg)
```
`check_mode` is `module.check_mode`; the source body never consults it
(the module declares `supports_check_mode=True` but takes no check-mode
branch), so it is an unused argument here exactly as it is unused there.
The `Exception` raised by `wait_for_task` is not a `vmodl.MethodFault`, so
it is not caught by the `except` clause and escapes as `uncaught`. -/
def set_drs_override (vm drs_behavior : String) (check_mode : Bool)
    (cluster : Cluster) (submit : SubmitOutcome) (fuel : Nat) : Invocation :=
  let existing_config := cluster.drsVmConfig.find? (fun c => c.key == vm)
  if (match existing_config with
      | some cfg => cfg.behavior == drs_behavior
      | none => false) then
    { exit := some (ModuleExit.exitJson false
        "DRS behavior is already set to the desired state."),
      submitted := [] }
  else
    let drs_vm_config_spec : DrsVmConfigSpec :=
      { operation := "add",
        info := { key := vm, enabled := true, behavior := drs_behavior } }
    match submit with
    | SubmitOutcome.fault m =>
      { exit := some (ModuleExit.failJson ("Failed to set DRS override: " ++ m)),
        submitted := [drs_vm_config_spec] }
    | SubmitOutcome.task st locMsg =>
      match (wait_for_task st locMsg 0 fuel).outcome with
      | none =>
        { exit := none, submitted := [drs_vm_config_spec] }
      | some WaitOutcome.success =>
        { exit := some (ModuleExit.exitJson true
            "DRS override applied successfully."),
          submitted := [drs_vm_config_spec] }
      | some (WaitOutcome.raised m) =>
        { exit := some (ModuleExit.uncaught m),
          submitted := [drs_vm_config_spec] }

/-- The `choices` list of the `drs_behavior` module argument. -/
def drs_behavior_choices : List String :=
  ["manual", "partiallyAutomated", "fullyAutomated"]

/-- One call to the external state store (the vCenter endpoint), for tracking
which remote interactions an invocation performs. -/
inductive StoreCall where
  | findTarget
  | getCurrentState
  | submitChange
  | pollStatus
  deriving DecidableEq, Repr

/-- Environment of a full `main` run: whether `self.get_vm()` finds the VM,
whether `self.is_vcenter()` holds, the cluster configuration read by
`set_drs_override`, and the remote endpoint's behavior. -/
structure MainEnv where
  vmFound : Bool
  isVcenter : Bool
  cluster : Cluster
  submit : SubmitOutcome

/-- Embeds `main`.  `AnsibleModule(argument_spec=…)` validates `drs_behavior`
against its `choices` list during module construction and calls `fail_json`
on an invalid value — this happens before `VmwareDrsOverride(module)` is
constructed, hence before any vCenter interaction (`get_vm`, reading the
cluster configuration, `ReconfigureCluster_Task`, task polling).  On a valid
value, `VmwareDrsOverride.__init__` looks up the VM (`fail_json` if absent),
checks `is_vcenter` (`fail_json` otherwise), then runs `set_drs_override`.
The second component lists the state-store calls performed, in order. -/
def main_run (vm_name drs_behavior : String) (check_mode : Bool)
    (env : MainEnv) (fuel : Nat) : Option ModuleExit × List StoreCall :=
  if drs_behavior ∈ drs_behavior_choices then
    if !env.vmFound then
      (some (ModuleExit.failJson ("VM '" ++ vm_name ++ "' not found.")),
       [StoreCall.findTarget])
    else if !env.isVcenter then
      (some (ModuleExit.failJson
         "DRS configuration is only supported in vCenter environments."),
       [StoreCall.findTarget])
    else
      let r := set_drs_override vm_name drs_behavior check_mode
        env.cluster env.submit fuel
      let polls :=
        match env.submit with
        | SubmitOutcome.fault _ => 0
        | SubmitOutcome.task st locMsg =>
          if r.submitted = [] then 0 else (wait_for_task st locMsg 0 fuel).polls
      (r.exit,
       [StoreCall.findTarget, StoreCall.getCurrentState]
         ++ r.submitted.map (fun _ => StoreCall.submitChange)
         ++ List.replicate polls StoreCall.pollStatus)
  else
    (some (ModuleExit.failJson
       ("value of drs_behavior must be one of: manual, partiallyAutomated, fullyAutomated, got: "
         ++ drs_behavior)),
     [])

/-! ## Helper lemmas -/

/-- The `wait_for_task` loop performs no suspension between guard checks:
its body is `pass`, so the sleep count of every run is zero. -/
theorem wait_for_task_sleeps (st : Nat → TaskState) (locMsg : String) :
    ∀ fuel i, (wait_for_task st locMsg i fuel).sleeps = 0 := by
  intro fuel
  induction fuel with
  | zero => intro i; rfl
  | succ n ih =>
    intro i
    by_cases h : st i = TaskState.running
    · simp [wait_for_task, h, ih]
    · by_cases hs : st i = TaskState.success
      · simp [wait_for_task, h, hs]
      · simp [wait_for_task, h, hs]

/-- On a task whose observed state is always `running`, the loop consumes all
its fuel polling (one guard check per fuel unit) and never produces an
outcome: there is no timeout, so the loop never exits. -/
theorem wait_for_task_always_running (locMsg : String) :
    ∀ fuel i, wait_for_task (fun _ => TaskState.running) locMsg i fuel
      = { outcome := none, polls := fuel, sleeps := 0 } := by
  intro fuel
  induction fuel with
  | zero => intro i; rfl
  | succ n ih => intro i; simp [wait_for_task, ih]

/-- If a run of the loop raises, the exception message is
`"Task failed: "` followed by `task.info.error.localizedMessage`. -/
theorem wait_for_task_raised_msg (st : Nat → TaskState) (locMsg : String) :
    ∀ fuel i m,
      (wait_for_task st locMsg i fuel).outcome = some (WaitOutcome.raised m) →
        m = "Task failed: " ++ locMsg := by
  intro fuel
  induction fuel with
  | zero => intro i m h; simp [wait_for_task] at h
  | succ n ih =>
    intro i m h
    by_cases hr : st i = TaskState.running
    · simp only [wait_for_task, if_pos hr] at h
      exact ih (i + 1) m h
    · by_cases hs : st i = TaskState.success
      · simp [wait_for_task, hr, hs] at h
      · simp [wait_for_task, hr, hs] at h
        exact h.symm

/-- The no-op guard `existing_config and existing_config.behavior ==
self.drs_behavior` is false whenever no matching entry has the desired
behavior. -/
theorem noop_guard_false (vm b : String) (cluster : Cluster)
    (hmis : ∀ cfg, cluster.drsVmConfig.find? (fun c => c.key == vm) = some cfg →
      cfg.behavior ≠ b) :
    (match cluster.drsVmConfig.find? (fun c => c.key == vm) with
     | some cfg => cfg.behavior == b
     | none => false) = false := by
  cases hf : cluster.drsVmConfig.find? (fun c => c.key == vm) with
  | none => rfl
  | some cfg => simpa using hmis cfg hf

/-- On the no-op path (an existing override whose behavior equals the desired
one), `set_drs_override` exits with `changed=False` and submits nothing. -/
theorem set_drs_override_noop (vm b : String) (cm : Bool) (cluster : Cluster)
    (submit : SubmitOutcome) (fuel : Nat) (cfg : DrsVmConfigInfo)
    (hfind : cluster.drsVmConfig.find? (fun c => c.key == vm) = some cfg)
    (hbeh : cfg.behavior = b) :
    set_drs_override vm b cm cluster submit fuel
      = { exit := some (ModuleExit.exitJson false
            "DRS behavior is already set to the desired state."),
          submitted := [] } := by
  simp [set_drs_override, hfind, hbeh]

/-- On the mismatch path, `set_drs_override` passes exactly one
`DrsVmConfigSpec` — operation `add`, `enabled=True`, the desired behavior —
to `ReconfigureCluster_Task`, whatever the remote endpoint then does. -/
theorem set_drs_override_mismatch_submitted (vm b : String) (cm : Bool)
    (cluster : Cluster) (submit : SubmitOutcome) (fuel : Nat)
    (hmis : ∀ cfg, cluster.drsVmConfig.find? (fun c => c.key == vm) = some cfg →
      cfg.behavior ≠ b) :
    (set_drs_override vm b cm cluster submit fuel).submitted
      = [{ operation := "add",
           info := { key := vm, enabled := true, behavior := b } }] := by
  have hg := noop_guard_false vm b cluster hmis
  cases submit with
  | fault m => simp [set_drs_override, hg]
  | task st locMsg =>
    cases ho : (wait_for_task st locMsg 0 fuel).outcome with
    | none => simp [set_drs_override, hg, ho]
    | some w => cases w <;> simp [set_drs_override, hg, ho]

/-- On the mismatch path with a task handle, the module exit is determined by
the wait loop's outcome: still spinning, `exit_json(changed=True)`, or an
uncaught exception. -/
theorem set_drs_override_mismatch_task_exit (vm b locMsg : String) (cm : Bool)
    (cluster : Cluster) (st : Nat → TaskState) (fuel : Nat)
    (hmis : ∀ cfg, cluster.drsVmConfig.find? (fun c => c.key == vm) = some cfg →
      cfg.behavior ≠ b) :
    (set_drs_override vm b cm cluster (SubmitOutcome.task st locMsg) fuel).exit
      = match (wait_for_task st locMsg 0 fuel).outcome with
        | none => none
        | some WaitOutcome.success =>
          some (ModuleExit.exitJson true "DRS override applied successfully.")
        | some (WaitOutcome.raised m) => some (ModuleExit.uncaught m) := by
  have hg := noop_guard_false vm b cluster hmis
  cases ho : (wait_for_task st locMsg 0 fuel).outcome with
  | none => simp [set_drs_override, hg, ho]
  | some w => cases w <;> simp [set_drs_override, hg, ho]

/-! ## Claims -/

/-- C1: Reconcile is idempotent in the no-op case.  When the existing
override for the VM already has the desired behavior, the call exits with
`changed=False` and submits no `ReconfigureCluster_Task`; since no change
request was issued, the cluster state is unchanged and a second identical
call (with any remote environment and any fuel bound) likewise submits
nothing and exits with `changed=False`. -/
theorem noop_reconcile_idempotent (vm b : String) (cm : Bool)
    (cluster : Cluster) (submit submit' : SubmitOutcome) (fuel fuel' : Nat)
    (cfg : DrsVmConfigInfo)
    (hfind : cluster.drsVmConfig.find? (fun c => c.key == vm) = some cfg)
    (hbeh : cfg.behavior = b) :
    (set_drs_override vm b cm cluster submit fuel).exit
        = some (ModuleExit.exitJson false
            "DRS behavior is already set to the desired state.")
      ∧ (set_drs_override vm b cm cluster submit fuel).submitted = []
      ∧ (set_drs_override vm b cm cluster submit' fuel').exit
        = some (ModuleExit.exitJson false
            "DRS behavior is already set to the desired state.")
      ∧ (set_drs_override vm b cm cluster submit' fuel').submitted = [] := by
  rw [set_drs_override_noop vm b cm cluster submit fuel cfg hfind hbeh,
      set_drs_override_noop vm b cm cluster submit' fuel' cfg hfind hbeh]
  exact ⟨rfl, rfl, rfl, rfl⟩

theorem noop_reconcile_idempotent_witness :
    (set_drs_override "vm-42" "manual" false
        { drsVmConfig := [{ key := "vm-42", enabled := true, behavior := "manual" }] }
        (SubmitOutcome.fault "f") 3).exit
      = some (ModuleExit.exitJson false
          "DRS behavior is already set to the desired state.")
    ∧ (set_drs_override "vm-42" "manual" false
        { drsVmConfig := [{ key := "vm-42", enabled := true, behavior := "manual" }] }
        (SubmitOutcome.fault "f") 3).submitted = [] :=
  have h := noop_reconcile_idempotent "vm-42" "manual" false
    { drsVmConfig := [{ key := "vm-42", enabled := true, behavior := "manual" }] }
    (SubmitOutcome.fault "f") (SubmitOutcome.fault "f") 3 3
    { key := "vm-42", enabled := true, behavior := "manual" } (by decide) rfl
  ⟨h.1, h.2.1⟩

/-- C2: the claim says that polling is bounded by a timeout argument and
that a `TimeoutError` result is produced when no terminal state arrives in
time.  The source has no timeout at all: on a task that stays `running`,
`wait_for_task` spends every unit of fuel on another poll of
`task.info.state` and never produces any outcome, so `set_drs_override`
never returns — for every bound `fuel` the invocation is still spinning and
has performed `fuel` polls. -/
theorem no_timeout_polling_unbounded (vm b locMsg : String) (cm : Bool)
    (cluster : Cluster) (fuel : Nat)
    (hmis : ∀ cfg, cluster.drsVmConfig.find? (fun c => c.key == vm) = some cfg →
      cfg.behavior ≠ b) :
    (set_drs_override vm b cm cluster
        (SubmitOutcome.task (fun _ => TaskState.running) locMsg) fuel).exit = none
      ∧ (wait_for_task (fun _ => TaskState.running) locMsg 0 fuel).polls = fuel := by
  have hw := wait_for_task_always_running locMsg fuel 0
  constructor
  · rw [set_drs_override_mismatch_task_exit vm b locMsg cm cluster
      (fun _ => TaskState.running) fuel hmis, hw]
  · rw [hw]

theorem no_timeout_polling_unbounded_witness :
    (set_drs_override "vm-42" "fullyAutomated" false
        { drsVmConfig := [{ key := "vm-42", enabled := true, behavior := "manual" }] }
        (SubmitOutcome.task (fun _ => TaskState.running) "m") 30).exit = none
    ∧ (wait_for_task (fun _ => TaskState.running) "m" 0 30).polls = 30 :=
  no_timeout_polling_unbounded "vm-42" "fullyAutomated" "m" false
    { drsVmConfig := [{ key := "vm-42", enabled := true, behavior := "manual" }] }
    30 (by intro cfg h; simp at h; rw [← h]; decide)

/-- C3: the claim says a Failed task yields a returned
`RemoteOperationError(M)` result, message verbatim, with no exception
escaping.  In the source, `wait_for_task` raises a plain
`Exception("Task failed: %s" % M)`; that exception is not a
`vmodl.MethodFault`, so the `except` clause of `set_drs_override` does not
catch it and it escapes the module boundary uncaught — and its message is
the remote message with a `"Task failed: "` prefix, not verbatim. -/
theorem task_failure_escapes_uncaught (vm b locMsg m : String) (cm : Bool)
    (cluster : Cluster) (st : Nat → TaskState) (fuel : Nat)
    (hmis : ∀ cfg, cluster.drsVmConfig.find? (fun c => c.key == vm) = some cfg →
      cfg.behavior ≠ b)
    (hfail : (wait_for_task st locMsg 0 fuel).outcome
      = some (WaitOutcome.raised m)) :
    (set_drs_override vm b cm cluster (SubmitOutcome.task st locMsg) fuel).exit
        = some (ModuleExit.uncaught m)
      ∧ m = "Task failed: " ++ locMsg := by
  constructor
  · rw [set_drs_override_mismatch_task_exit vm b locMsg cm cluster st fuel hmis,
      hfail]
  · exact wait_for_task_raised_msg st locMsg fuel 0 m hfail

theorem task_failure_escapes_uncaught_witness :
    (set_drs_override "vm-42" "fullyAutomated" false
        { drsVmConfig := [{ key := "vm-42", enabled := true, behavior := "manual" }] }
        (SubmitOutcome.task (fun _ => TaskState.error) "insufficient resources")
        1).exit
      = some (ModuleExit.uncaught "Task failed: insufficient resources") :=
  (task_failure_escapes_uncaught "vm-42" "fullyAutomated"
    "insufficient resources" "Task failed: insufficient resources" false
    { drsVmConfig := [{ key := "vm-42", enabled := true, behavior := "manual" }] }
    (fun _ => TaskState.error) 1
    (by intro cfg h; simp at h; rw [← h]; decide)
    (by decide)).1

/-- C4: exactly one `DrsVmConfigSpec` carrying the desired behavior is
submitted to `ReconfigureCluster_Task` when the existing override is absent
or differs from the desired behavior, and none is submitted otherwise —
whatever the remote endpoint does and however long polling runs. -/
theorem mismatch_submits_exactly_one (vm b : String) (cm : Bool)
    (cluster : Cluster) (submit : SubmitOutcome) (fuel : Nat) :
    (set_drs_override vm b cm cluster submit fuel).submitted
      = match cluster.drsVmConfig.find? (fun c => c.key == vm) with
        | some cfg =>
          if cfg.behavior = b then []
          else [{ operation := "add",
                  info := { key := vm, enabled := true, behavior := b } }]
        | none => [{ operation := "add",
                     info := { key := vm, enabled := true, behavior := b } }] := by
  cases hf : cluster.drsVmConfig.find? (fun c => c.key == vm) with
  | none =>
    rw [set_drs_override_mismatch_submitted vm b cm cluster submit fuel
      (by intro cfg h; rw [hf] at h; cases h)]
  | some cfg =>
    by_cases hb : cfg.behavior = b
    · rw [set_drs_override_noop vm b cm cluster submit fuel cfg hf hb]
      simp [hb]
    · rw [set_drs_override_mismatch_submitted vm b cm cluster submit fuel
        (by intro c h; rw [hf] at h; cases h; exact hb)]
      simp [hb]

/-- C5: when the submitted task reaches `success`, the module exits with
`changed=True`, and the single submitted change request carries the desired
behavior for the VM — the state the cluster was asked to reach is exactly
`desiredState`. -/
theorem success_reports_changed (vm b locMsg : String) (cm : Bool)
    (cluster : Cluster) (st : Nat → TaskState) (fuel : Nat)
    (hmis : ∀ cfg, cluster.drsVmConfig.find? (fun c => c.key == vm) = some cfg →
      cfg.behavior ≠ b)
    (hsucc : (wait_for_task st locMsg 0 fuel).outcome
      = some WaitOutcome.success) :
    (set_drs_override vm b cm cluster (SubmitOutcome.task st locMsg) fuel).exit
        = some (ModuleExit.exitJson true "DRS override applied successfully.")
      ∧ (set_drs_override vm b cm cluster (SubmitOutcome.task st locMsg)
          fuel).submitted
        = [{ operation := "add",
             info := { key := vm, enabled := true, behavior := b } }] := by
  constructor
  · rw [set_drs_override_mismatch_task_exit vm b locMsg cm cluster st fuel hmis,
      hsucc]
  · exact set_drs_override_mismatch_submitted vm b cm cluster
      (SubmitOutcome.task st locMsg) fuel hmis

theorem success_reports_changed_witness :
    (set_drs_override "vm-42" "fullyAutomated" false { drsVmConfig := [] }
        (SubmitOutcome.task (fun _ => TaskState.success) "m") 1).exit
      = some (ModuleExit.exitJson true "DRS override applied successfully.") :=
  (success_reports_changed "vm-42" "fullyAutomated" "m" false
    { drsVmConfig := [] } (fun _ => TaskState.success) 1
    (by intro cfg h; simp at h) (by decide)).1

/-- C6: the claim says consecutive polls are always separated by a sleep or
other suspension.  The source loop body is `pass`: no run of `wait_for_task`
ever suspends (its sleep count is always zero), while a run on a
still-running task performs several consecutive polls — three polls, zero
sleeps, in the concrete run below. -/
theorem poll_loop_busy_spins :
    (∀ (st : Nat → TaskState) (locMsg : String) (fuel i : Nat),
        (wait_for_task st locMsg i fuel).sleeps = 0)
      ∧ (wait_for_task (fun _ => TaskState.running) "m" 0 3).polls = 3
      ∧ (wait_for_task (fun _ => TaskState.running) "m" 0 3).sleeps = 0 :=
  ⟨fun st locMsg fuel i => wait_for_task_sleeps st locMsg fuel i,
   by decide, by decide⟩

/-- C7: a `drs_behavior` outside the `choices` list makes `AnsibleModule`
argument validation fail the run before `VmwareDrsOverride` is constructed,
so no state-store interaction (VM lookup, cluster-configuration read,
reconfiguration call, or task poll) ever happens. -/
theorem invalid_behavior_no_store_calls (vm_name b : String) (cm : Bool)
    (env : MainEnv) (fuel : Nat) (h : b ∉ drs_behavior_choices) :
    main_run vm_name b cm env fuel
      = (some (ModuleExit.failJson
          ("value of drs_behavior must be one of: manual, partiallyAutomated, fullyAutomated, got: "
            ++ b)),
         []) := by
  simp [main_run, h]

theorem invalid_behavior_no_store_calls_witness :
    main_run "vm-42" "automatic" false
      { vmFound := true, isVcenter := true, cluster := { drsVmConfig := [] },
        submit := SubmitOutcome.fault "f" } 5
      = (some (ModuleExit.failJson
          "value of drs_behavior must be one of: manual, partiallyAutomated, fullyAutomated, got: automatic"),
         []) :=
  invalid_behavior_no_store_calls "vm-42" "automatic" false
    { vmFound := true, isVcenter := true, cluster := { drsVmConfig := [] },
      submit := SubmitOutcome.fault "f" } 5 (by decide)

set_option linter.unusedVariables false in
/-- C8: when no override entry exists for the VM (`next(..., None)` yields
`None`), the guard is false and a create request — operation `add` with the
desired behavior — is submitted, for every allowed desired value. -/
theorem absent_override_treated_as_mismatch (vm b : String) (cm : Bool)
    (cluster : Cluster) (submit : SubmitOutcome) (fuel : Nat)
    (hb : b ∈ drs_behavior_choices)
    (habsent : cluster.drsVmConfig.find? (fun c => c.key == vm) = none) :
    (set_drs_override vm b cm cluster submit fuel).submitted
      = [{ operation := "add",
           info := { key := vm, enabled := true, behavior := b } }] :=
  set_drs_override_mismatch_submitted vm b cm cluster submit fuel
    (by intro cfg h; rw [habsent] at h; cases h)

theorem absent_override_treated_as_mismatch_witness :
    (set_drs_override "vm-42" "partiallyAutomated" false { drsVmConfig := [] }
        (SubmitOutcome.fault "f") 0).submitted
      = [{ operation := "add",
           info := { key := "vm-42", enabled := true,
                     behavior := "partiallyAutomated" } }] :=
  absent_override_treated_as_mismatch "vm-42" "partiallyAutomated" false
    { drsVmConfig := [] } (SubmitOutcome.fault "f") 0 (by decide) (by decide)

set_option linter.unusedVariables false in
/-- C9: the no-op guard compares only the `behavior` field of the existing
override: when the existing entry has the desired behavior but
`enabled=False`, the module still exits with `changed=False` and submits
nothing, so the disabled override is never re-enabled. -/
theorem comparison_ignores_enabled_flag (vm b : String) (cm : Bool)
    (cluster : Cluster) (submit : SubmitOutcome) (fuel : Nat)
    (cfg : DrsVmConfigInfo)
    (hfind : cluster.drsVmConfig.find? (fun c => c.key == vm) = some cfg)
    (hbeh : cfg.behavior = b) (hdisabled : cfg.enabled = false) :
    (set_drs_override vm b cm cluster submit fuel).exit
        = some (ModuleExit.exitJson false
            "DRS behavior is already set to the desired state.")
      ∧ (set_drs_override vm b cm cluster submit fuel).submitted = [] := by
  rw [set_drs_override_noop vm b cm cluster submit fuel cfg hfind hbeh]
  exact ⟨rfl, rfl⟩

theorem comparison_ignores_enabled_flag_witness :
    (set_drs_override "vm-42" "manual" false
        { drsVmConfig := [{ key := "vm-42", enabled := false, behavior := "manual" }] }
        (SubmitOutcome.fault "f") 3).submitted = [] :=
  (comparison_ignores_enabled_flag "vm-42" "manual" false
    { drsVmConfig := [{ key := "vm-42", enabled := false, behavior := "manual" }] }
    (SubmitOutcome.fault "f") 3
    { key := "vm-42", enabled := false, behavior := "manual" }
    (by decide) rfl rfl).2

/-- C10: `supports_check_mode=True` is declared but `module.check_mode` is
never consulted: with check mode on, a mismatched invocation still submits
the real reconfiguration request, and the whole invocation result is
independent of the check-mode flag. -/
theorem check_mode_does_not_suppress_mutation (vm b : String)
    (cluster : Cluster) (submit : SubmitOutcome) (fuel : Nat)
    (hmis : ∀ cfg, cluster.drsVmConfig.find? (fun c => c.key == vm) = some cfg →
      cfg.behavior ≠ b) :
    (set_drs_override vm b true cluster submit fuel).submitted
        = [{ operation := "add",
             info := { key := vm, enabled := true, behavior := b } }]
      ∧ ∀ cm : Bool, set_drs_override vm b cm cluster submit fuel
          = set_drs_override vm b true cluster submit fuel :=
  ⟨set_drs_override_mismatch_submitted vm b true cluster submit fuel hmis,
   fun _ => rfl⟩

theorem check_mode_does_not_suppress_mutation_witness :
    (set_drs_override "vm-42" "fullyAutomated" true { drsVmConfig := [] }
        (SubmitOutcome.fault "f") 0).submitted
      = [{ operation := "add",
           info := { key := "vm-42", enabled := true,
                     behavior := "fullyAutomated" } }] :=
  (check_mode_does_not_suppress_mutation "vm-42" "fullyAutomated"
    { drsVmConfig := [] } (SubmitOutcome.fault "f") 0
    (by intro cfg h; simp at h)).1

end VmwareDrsOverride
